import Mathlib

/-!
Verification development for the tap-nice-incontact extraction engine.

Shallow embedding of the relevant parts of the source:
  - `tap_nice_incontact/streams.py`  (window generation, incremental sync,
    data-extraction job driver),
  - `tap_nice_incontact/client.py`   (token lifecycle, response
    classification, retry policy),
  - `tap_nice_incontact/transform.py` (type coercion, duration conversion,
    CSV key normalisation).

Timestamps are modelled as natural numbers of seconds since an arbitrary
epoch; Python `datetime` arithmetic at whole-second resolution is exactly
integer arithmetic on these.  Python dicts are modelled as association
lists in insertion order (Python dicts preserve insertion order).
-/

/-! ## Window generator (`BaseStream.generate_date_range`, streams.py:70-103) -/

/-- The three period choices accepted by `generate_date_range`. -/
inductive Period
  | days
  | hours
  | minutes
deriving DecidableEq, Repr

/-- One loop step of `generate_date_range`: the Python loop keeps a mutable
`new_start` (initially `start_date`), and for each loop index `d` appends the
pair `(new_start, start_date + d * unit)` and sets `new_start` to that end.
`unit` is the number of seconds per loop-index unit (86400 for days, 3600 for
hours, 60 for minutes). -/
def windowsFrom (new_start start_date unit : Nat) : List Nat → List (Nat × Nat)
  | [] => []
  | d :: rest =>
      (new_start, start_date + d * unit) :: windowsFrom (start_date + d * unit) start_date unit rest

/-- Loop indices of the `days` branch: `range(1, (end_date - start_date).days + 1)`.
`timedelta.days` truncates to whole elapsed days. -/
def dayIndices (start_date end_date : Nat) : List Nat :=
  (List.range ((end_date - start_date) / 86400)).map (· + 1)

/-- Loop indices of the `hours` branch:
`range(1, int((end_date - start_date) / timedelta(hours=1)) + 1)`;
`int` truncates the exact quotient. -/
def hourIndices (start_date end_date : Nat) : List Nat :=
  (List.range ((end_date - start_date) / 3600)).map (· + 1)

/-- Loop indices of the `minutes` branch:
`range(5, int((end_date - start_date) / timedelta(minutes=1)) + 5, 5)`.
With `M` the truncated total minutes, the range has `(M + 4) / 5` elements,
the `j`-th being `5 * (j + 1)`. -/
def minuteIndices (start_date end_date : Nat) : List Nat :=
  (List.range (((end_date - start_date) / 60 + 4) / 5)).map (fun j => 5 * (j + 1))

/-- Embedding of `BaseStream.generate_date_range` (streams.py:70-103), with
timestamps in seconds.  The emitted pairs are the `(strftime new_start,
strftime new_end)` tuples in order. -/
def generate_date_range (start_date end_date : Nat) (period : Period) : List (Nat × Nat) :=
  match period with
  | .days => windowsFrom start_date start_date 86400 (dayIndices start_date end_date)
  | .hours => windowsFrom start_date start_date 3600 (hourIndices start_date end_date)
  | .minutes => windowsFrom start_date start_date 60 (minuteIndices start_date end_date)

/-- Seconds spanned by one emitted window for each period. -/
def unitSeconds : Period → Nat
  | .days => 86400
  | .hours => 3600
  | .minutes => 300

/-- Number of windows the code actually produces for each period. -/
def windowCount (start_date end_date : Nat) : Period → Nat
  | .days => (end_date - start_date) / 86400
  | .hours => (end_date - start_date) / 3600
  | .minutes => ((end_date - start_date) / 60 + 4) / 5

/-! ## Incremental sync fold (`IncrementalStream.sync`, streams.py:128-171, and
`DataExtractionStream.sync`, streams.py:705-753)

Both sync methods run the same record loop: starting from the bookmark read
out of state, each record whose replication value is `>=` the run-start
bookmark is written, and the loop executes
`max_datetime = max(record_datetime, bookmark_datetime)` — the max is taken
against the run-start bookmark, not the running `max_datetime`.  Records are
modelled by their replication-key value (a timestamp in seconds). -/

/-- The record loop shared by `IncrementalStream.sync` and
`DataExtractionStream.sync`: first component is the list of written records,
second the final `max_datetime`. -/
def syncEmit (bookmark : Nat) : List Nat → Nat → List Nat × Nat
  | [], maxDt => ([], maxDt)
  | r :: rest, maxDt =>
      if bookmark ≤ r then
        let res := syncEmit bookmark rest (max r bookmark)
        (r :: res.1, res.2)
      else
        syncEmit bookmark rest maxDt

/-- One incremental sync run: returns the emitted records and the bookmark
value persisted by `singer.write_bookmark` at the end of the run
(streams.py:144-170). -/
def incremental_sync (bookmark : Nat) (records : List Nat) : List Nat × Nat :=
  syncEmit bookmark records bookmark

/-! ## Token lifecycle (`NiceInContactClient._ensure_access_token`,
client.py:103-144) -/

/-- Session token state held on the client (client.py:96-99).  The expiry
clocks are compared against `dt.utcnow()`; they are only read on branches
where the corresponding token is set, so they are carried as plain integers. -/
structure SessionState where
  access_token : Option String
  refresh_token : Option String
  access_expires_at : Int
  refresh_expires_at : Int
deriving DecidableEq, Repr

/-- What `_ensure_access_token` does on a call. -/
inductive AuthAction
  | refreshFlow
  | fullAuth
  | useExisting
deriving DecidableEq, Repr

/-- Branch selection of `_ensure_access_token` (client.py:109-144) at time
`now`: the refresh branch fires when the `refresh_token` argument is truthy
and `refresh_expires_at <= utcnow()`; otherwise the full-authentication
branch fires when `access_token is None or access_expires_at >= utcnow()`;
otherwise the method returns without touching the session. -/
def ensure_access_token (st : SessionState) (refresh_token_arg : Option String) (now : Int) :
    AuthAction :=
  if refresh_token_arg.isSome ∧ st.refresh_expires_at ≤ now then .refreshFlow
  else if st.access_token.isNone ∨ st.access_expires_at ≥ now then .fullAuth
  else .useExisting

/-! ## Response classification and retry (`NiceInContactClient._make_request`,
client.py:152-256) -/

/-- The exception kinds `_make_request` can raise, plus network connection
failures (`requests.ConnectionError`). -/
inductive ExcKind
  | server5xx
  | rateLimit429
  | unauthorized401
  | forbidden403
  | client4xx
  | connectionError
deriving DecidableEq, Repr

/-- Maximum attempt count passed to `backoff.on_exception` (client.py:22). -/
def MAX_RETRIES : Nat := 8

/-- Status-code ladder of `_make_request` (client.py:227-256): the returned
`Bool` is `true` when the response is a 204 No Content (the method then
returns `None` to the caller). -/
def attemptOutcome (status : Nat) : Except ExcKind Bool :=
  if 500 ≤ status then .error .server5xx
  else if status = 429 then .error .rateLimit429
  else if status = 401 then .error .unauthorized401
  else if status = 403 then .error .forbidden403
  else if 400 ≤ status then .error .client4xx
  else if status = 204 then .ok true
  else .ok false

/-- Membership in the exception tuple of the `backoff.on_exception` decorator
(client.py:152-157): `NiceInContact5xxException`, `NiceInContact4xxException`
(which covers its 401 and 403 subclasses), and `requests.ConnectionError`.
`NiceInContact429Exception` subclasses `NiceInContactException` directly and
is not in the tuple. -/
def retryable : ExcKind → Bool
  | .server5xx => true
  | .client4xx => true
  | .forbidden403 => true
  | .unauthorized401 => true
  | .connectionError => true
  | .rateLimit429 => false

/-- The `backoff` retry loop: `out i` is the outcome of the `i`-th call of the
decorated `_make_request`; the second argument is the number of tries still
allowed (`max_tries` counts total calls).  Returns the number of calls
performed and the final outcome.  The `0`-tries case is unreachable for
`max_tries >= 1`. -/
def backoffCalls (out : Nat → Except ExcKind Bool) (i : Nat) : Nat → Nat × Except ExcKind Bool
  | 0 => (i, .error .connectionError)
  | 1 => (i + 1, out i)
  | n + 2 =>
      match out i with
      | .ok v => (i + 1, .ok v)
      | .error e => if retryable e then backoffCalls out (i + 1) (n + 1) else (i + 1, .error e)

/-- A call of the decorated `_make_request`, driven by the per-attempt
outcomes `out`. -/
def make_request (out : Nat → Except ExcKind Bool) : Nat × Except ExcKind Bool :=
  backoffCalls out 0 MAX_RETRIES

/-! ## Export-job driver (`DataExtractionStream`, streams.py:612-783) -/

/-- Exceptions relevant to `DataExtractionStream.get_records`'s `try` block:
`NiceInContact403Exception` and `NiceInContact5xxException` come from the
client, `ValueError` from the failure-status branch of `fetch_data_export`
(streams.py:700), and `plainException` stands for the bare
`Exception(...)` raises of the poll loop (timeout at streams.py:684, missing
job status at streams.py:688).  `rateLimit429` is the client's
`NiceInContact429Exception`. -/
inductive JobExc
  | forbidden403
  | server5xx
  | rateLimit429
  | valueErrorJobFailure
  | plainException
deriving DecidableEq, Repr

/-- Whether the exception is caught by the
`except (NiceInContact403Exception, NiceInContact5xxException, ValueError)`
clause at streams.py:770.  A bare `Exception` and
`NiceInContact429Exception` match none of the three. -/
def caughtByGetRecords : JobExc → Bool
  | .forbidden403 => true
  | .server5xx => true
  | .valueErrorJobFailure => true
  | .rateLimit429 => false
  | .plainException => false

/-- Poll loop of `fetch_data_export` (streams.py:682-700).  `polls i` is the
`jobStatus` field of the `i`-th poll response (`none` when the field is
absent).  `elapsed` models the wall clock consumed by the `poll_delay` sleeps
taken on `RUNNING`; the timeout test `elapsed > poll_timeout` runs before each
poll.  `fuel` bounds the recursion; `poll_timeout + 2` iterations suffice
whenever `poll_delay >= 1`. -/
def pollLoop (poll_delay poll_timeout : Nat) (polls : Nat → Option String) :
    Nat → Nat → Nat → Except JobExc Unit
  | 0, _, _ => .error .plainException
  | fuel + 1, i, elapsed =>
      if elapsed > poll_timeout then .error .plainException
      else
        match polls i with
        | none => .error .plainException
        | some status =>
            if status = "SUCCEEDED" then .ok ()
            else if status = "RUNNING" then
              pollLoop poll_delay poll_timeout polls fuel (i + 1) (elapsed + poll_delay)
            else .error .valueErrorJobFailure

/-- Embedding of `DataExtractionStream.fetch_data_export`
(streams.py:664-703): on a successful poll loop the CSV rows are downloaded
and returned. -/
def fetch_data_export (poll_delay poll_timeout : Nat) (polls : Nat → Option String)
    (csvRows : List Nat) : Except JobExc (List Nat) :=
  match pollLoop poll_delay poll_timeout polls (poll_timeout + 2) 0 0 with
  | .ok () => .ok csvRows
  | .error e => .error e

/-- Window loop of `DataExtractionStream.get_records` (streams.py:755-783).
`outcomes` lists, per generated window in order, the result of
`fetch_data_export` for that window (records modelled abstractly as `Nat`).
The first component is the records yielded; the second is `some e` when an
uncaught exception `e` escapes, `none` when the loop ends normally (either by
exhausting the windows or by the `break` on a caught exception).  An empty
result list is falsy in Python, so the `if not results: continue` branch and
the yielding branch coincide with appending. -/
def dataExtractionGetRecords : List (Except JobExc (List Nat)) → List Nat × Option JobExc
  | [] => ([], none)
  | .error e :: _ => if caughtByGetRecords e then ([], none) else ([], some e)
  | .ok rs :: rest =>
      let res := dataExtractionGetRecords rest
      (rs ++ res.1, res.2)

/-! ## 204 handling in windowed extractors (`SkillsSummary.get_records`,
streams.py:297-315, vs `WFMAgentsScheduleAdherence.get_records`,
streams.py:551-569)

Per generated window the client returns `some rows` (the parsed data-key
list) or `none` (HTTP 204 makes `_make_request` return `None`,
client.py:247-256). -/

/-- Kinds of runtime errors surfaced by the transform/stream embeddings. -/
inductive PyErr
  | attributeError
  | schemaMismatch
  | valueError
  | typeError
  | jsonDecodeError
deriving DecidableEq, Repr

/-- Window loop of `SkillsSummary.get_records`: the result of each window is
used as `results.get(self.data_key)` without a null test, so a `None`
response raises `AttributeError` (streams.py:312-315). -/
def skillsSummaryGetRecords : List (Option (List Nat)) → Except PyErr (List Nat)
  | [] => .ok []
  | none :: _ => .error .attributeError
  | some rs :: rest => (skillsSummaryGetRecords rest).map (rs ++ ·)

/-- Window loop of `WFMAgentsScheduleAdherence.get_records`: a falsy result
is skipped with `continue` (streams.py:563-565) before the data key is read. -/
def wfmScheduleAdherenceGetRecords : List (Option (List Nat)) → Except PyErr (List Nat)
  | [] => .ok []
  | none :: rest => wfmScheduleAdherenceGetRecords rest
  | some rs :: rest => (wfmScheduleAdherenceGetRecords rest).map (rs ++ ·)

/-! ## Type coercion (`convert_data_types`, transform.py:9-40) -/

/-- Scalar values of an API record. -/
inductive PyVal
  | int (n : Int)
  | str (s : String)
  | bool (b : Bool)
deriving DecidableEq, Repr

/-- Python `isinstance(value, int)` — `bool` is a subclass of `int`. -/
def PyVal.isIntInstance : PyVal → Bool
  | .int _ => true
  | .bool _ => true
  | .str _ => false

/-- Python `isinstance(value, str)`. -/
def PyVal.isStrInstance : PyVal → Bool
  | .str _ => true
  | _ => false

/-- Python `isinstance(value, bool)`. -/
def PyVal.isBoolInstance : PyVal → Bool
  | .bool _ => true
  | _ => false

/-- Python truthiness of a scalar. -/
def PyVal.truthy : PyVal → Bool
  | .int n => n ≠ 0
  | .str s => s ≠ ""
  | .bool b => b

/-- Value of an all-digit character run; `none` when empty or a non-digit
appears. -/
def digitsToNat? : List Char → Option Nat
  | [] => none
  | [c] => if c.isDigit then some (c.toNat - 48) else none
  | c :: rest =>
      if c.isDigit then (digitsToNat? rest).map (fun n => (c.toNat - 48) * 10 ^ rest.length + n)
      else none

/-- Integer literal parsing as Python `int(...)` does on a trimmed decimal
string: an optional sign followed by digits. -/
def strToInt? (s : String) : Option Int :=
  match s.data with
  | '-' :: rest => (digitsToNat? rest).map (fun n => -(n : Int))
  | '+' :: rest => (digitsToNat? rest).map (fun n => (n : Int))
  | l => (digitsToNat? l).map (fun n => (n : Int))

/-- Python `int(value)` on a scalar: identity on ints, 0/1 on bools, digit
parsing on strings (`ValueError` when the string is not an integer literal). -/
def pyInt : PyVal → Except PyErr PyVal
  | .int n => .ok (.int n)
  | .bool b => .ok (.int (if b then 1 else 0))
  | .str s =>
      match strToInt? s with
      | some n => .ok (.int n)
      | none => .error .valueError

/-- Python `str(value)` on a scalar. -/
def pyStrOf : PyVal → String
  | .int n => toString n
  | .str s => s
  | .bool b => if b then "True" else "False"

/-- Lower-casing of a string, character by character (Python `str.lower` on
the ASCII range). -/
def pyLowerStr (s : String) : String :=
  String.mk (s.data.map Char.toLower)

/-- Python `json.loads` restricted to the scalars this code can meet: the
JSON literals `true`/`false`, integer literals, anything else a decode
error. -/
def jsonLoadsScalar (s : String) : Except PyErr PyVal :=
  if s = "true" then .ok (.bool true)
  else if s = "false" then .ok (.bool false)
  else
    match strToInt? s with
    | some n => .ok (.int n)
    | none => .error .jsonDecodeError

/-- Declared schema entry for one field: the `type` member (as the collection
the Python `in` test searches) and the optional `format` member. -/
structure FieldProp where
  type : List String
  format : Option String
deriving DecidableEq, Repr

/-- Association-list lookup standing for `schema['properties'].get(field)`. -/
def lookupProp (props : List (String × FieldProp)) (field : String) : Option FieldProp :=
  (props.find? (fun p => p.1 = field)).map (·.2)

/-- The three coercions applied to one declared field
(transform.py:29-36, in program order): `int(value)` for integer-typed
fields, `str(value)` for `singer.decimal`-format fields, and
`bool(json.loads(value.lower()))` for boolean-typed fields (`.lower()` on a
non-string raises `AttributeError`). -/
def convertField (prop : FieldProp) (v : PyVal) : Except PyErr PyVal := do
  let v ← if "integer" ∈ prop.type ∧ ¬ v.isIntInstance then pyInt v else .ok v
  let v :=
    if prop.format = some "singer.decimal" ∧ ¬ v.isStrInstance then PyVal.str (pyStrOf v) else v
  if "boolean" ∈ prop.type ∧ ¬ v.isBoolInstance then
    match v with
    | .str s => (jsonLoadsScalar (pyLowerStr s)).map (fun j => PyVal.bool j.truthy)
    | _ => .error .attributeError
  else
    .ok v

/-- Embedding of `convert_data_types` (transform.py:9-40).  When a record
field is absent from the schema's properties, the code formats
`f'{field}: does not match: {field_prop.get("type")}'` with
`field_prop = None`, so the attribute access raises `AttributeError` before
the `raise SchemaMismatch(...)` on the next line can run. -/
def convert_data_types (data : List (String × PyVal)) (props : List (String × FieldProp)) :
    Except PyErr (List (String × PyVal)) :=
  match data with
  | [] => .ok []
  | (f, v) :: rest =>
      match lookupProp props f with
      | none => .error .attributeError
      | some prop => do
          let v' ← convertField prop v
          let rest' ← convert_data_types rest props
          .ok ((f, v') :: rest')

/-! ## Duration conversion (`transform_iso8601_durations`, transform.py:42-62)

The code calls `isodate.parse_duration(value).total_seconds()` and catches
only `ISO8601Error`.  Modelled from the isodate library's interface:
`parse_duration` raises `TypeError` when its argument is not a string, and
`ISO8601Error` when the string does not match the duration grammar.  The
grammar is modelled for sign, weeks, days and `T`-separated hours, minutes
and seconds with integer components; year/month durations and fractional
components are outside the model and are treated as parse failures. -/

/-- Greedy digit run: accumulates leading digits, returns the value and the
remaining characters. -/
def parseNumAux : List Char → Nat → Nat × List Char
  | [], acc => (acc, [])
  | c :: rest, acc =>
      if c.isDigit then parseNumAux rest (acc * 10 + (c.toNat - 48)) else (acc, c :: rest)

/-- Parses a nonempty digit run, or fails. -/
def parseNum (l : List Char) : Option (Nat × List Char) :=
  match l with
  | [] => none
  | c :: _ => if c.isDigit then some (parseNumAux l 0) else none

/-- Parses one optional duration component `<digits><designator>`; when the
digits are absent or followed by a different designator nothing is
consumed. -/
def parseComp (designator : Char) (l : List Char) : Option Nat × List Char :=
  match parseNum l with
  | some (n, c :: rest) => if c = designator then (some n, rest) else (none, l)
  | _ => (none, l)

/-- Model of `isodate.parse_duration(s).total_seconds()` followed by `int(...)`
on the modelled grammar subset: `none` stands for `ISO8601Error`. -/
def parse_duration_secs (s : String) : Option Int :=
  let (sign, l) :=
    match s.data with
    | '+' :: r => ((1 : Int), r)
    | '-' :: r => ((-1 : Int), r)
    | l => ((1 : Int), l)
  match l with
  | 'P' :: r =>
      let (w, r) := parseComp 'W' r
      let (d, r) := parseComp 'D' r
      let dateSecs : Nat := w.getD 0 * 604800 + d.getD 0 * 86400
      match r with
      | 'T' :: rt =>
          let (h, rt) := parseComp 'H' rt
          let (m, rt) := parseComp 'M' rt
          let (sec, rt) := parseComp 'S' rt
          if rt = [] then
            some (sign * (dateSecs + h.getD 0 * 3600 + m.getD 0 * 60 + sec.getD 0 : Nat))
          else none
      | [] => if w.isSome ∨ d.isSome then some (sign * (dateSecs : Nat)) else none
      | _ => none
  | _ => none

/-- The `try` body applied to one field value (transform.py:53-57): a string
is converted when it parses, passed through on `ISO8601Error`; a non-string
raises `TypeError`, which the `except ISO8601Error` clause does not catch. -/
def tryDurationValue : PyVal → Except PyErr PyVal
  | .str s =>
      match parse_duration_secs s with
      | some n => .ok (.int n)
      | none => .ok (.str s)
  | _ => .error .typeError

/-- Field loop of `transform_iso8601_durations` over one record. -/
def transformRecordDurations : List (String × PyVal) → Except PyErr (List (String × PyVal))
  | [] => .ok []
  | (f, v) :: rest => do
      let v' ← tryDurationValue v
      let rest' ← transformRecordDurations rest
      .ok ((f, v') :: rest')

/-- Embedding of `transform_iso8601_durations` (transform.py:42-62). -/
def transform_iso8601_durations (data : List (List (String × PyVal))) :
    Except PyErr (List (List (String × PyVal)))
  := match data with
  | [] => .ok []
  | record :: rest => do
      let r ← transformRecordDurations record
      let rs ← transform_iso8601_durations rest
      .ok (r :: rs)

/-- Pure conversion a string value undergoes (used to state what the
transform does on all-string records). -/
def durationStrConv : PyVal → PyVal
  | .str s =>
      match parse_duration_secs s with
      | some n => .int n
      | none => .str s
  | v => v

/-! ## CSV key normalisation (`convert_data_keys`, transform.py:65-90) -/

/-- Python `sub.count(...) > 0`-style containment test: whether `needle`
occurs as a contiguous run inside `hay` (the `'- ' in field` test). -/
def containsSeq (needle : List Char) : List Char → Bool
  | [] => needle.isPrefixOf []
  | c :: rest => needle.isPrefixOf (c :: rest) || containsSeq needle rest

/-- Python `str.split(' ')`: splits at every single space, keeping empty
segments. -/
def splitSpaces : List Char → List (List Char)
  | [] => [[]]
  | c :: rest =>
      match splitSpaces rest with
      | [] => [[c]]
      | seg :: segs => if c = ' ' then [] :: seg :: segs else (c :: seg) :: segs

/-- Python `str.capitalize()`: first character upper-cased, the rest
lower-cased. -/
def pyCapitalize : List Char → List Char
  | [] => []
  | c :: rest => Char.toUpper c :: rest.map Char.toLower

/-- Embedding of the per-field transform inside `convert_data_keys`
(transform.py:72-88): lower-case; `re.sub('[\x28\x29]', ' ', ...)` (the
`'(' or ')' in field` guard is always truthy, so the substitution always
runs and turns each parenthesis into a space); when the original field
contains `'- '`, `replace('-', ' ')` turns every dash into a space; split on
single spaces; when there is more than one segment, concatenate the first
with each subsequent nonempty segment capitalized. -/
def convertKeyChars (field : List Char) : List Char :=
  let nf := field.map Char.toLower
  let nf := nf.map (fun c => if c = '(' ∨ c = ')' then ' ' else c)
  let nf := if containsSeq ['-', ' '] field then nf.map (fun c => if c = '-' then ' ' else c)
            else nf
  let segs := splitSpaces nf
  if segs.length > 1 then
    match segs with
    | [] => nf
    | s0 :: rest => rest.foldl (fun acc seg => if seg.length > 0 then acc ++ pyCapitalize seg
                                               else acc) s0
  else nf

/-- Key transform of `convert_data_keys` on one column header. -/
def convert_data_key (field : String) : String :=
  String.mk (convertKeyChars field.data)

/-- Overwriting insert with Python `dict.update` semantics: an existing key
keeps its position and gets the new value, a new key is appended. -/
def dictSet (d : List (String × PyVal)) (k : String) (v : PyVal) : List (String × PyVal) :=
  match d with
  | [] => [(k, v)]
  | (k0, v0) :: rest => if k0 = k then (k0, v) :: rest else (k0, v0) :: dictSet rest k v

/-- Embedding of `convert_data_keys` (transform.py:65-90): each entry is
re-inserted under its transformed key. -/
def convert_data_keys (data : List (String × PyVal)) : List (String × PyVal) :=
  data.foldl (fun acc p => dictSet acc (convert_data_key p.1) p.2) []

/-- Replacement of every occurrence of the sequence `'- '` by `'-'`, as the
claim's words describe it. -/
def replaceDashSpace : List Char → List Char
  | [] => []
  | '-' :: ' ' :: rest => '-' :: replaceDashSpace rest
  | c :: rest => c :: replaceDashSpace rest

/-- Per-field transform obtained by reading the claim literally: lower-case,
strip (delete) parentheses, replace every occurrence of the sequence `'- '`
with `'-'`, split on spaces, and concatenate the segments with each segment
after the first capitalized. -/
def claimKeyTransform (field : String) : String :=
  let nf := field.data.map Char.toLower
  let nf := nf.filter (fun c => ¬ (c = '(' ∨ c = ')'))
  let nf := replaceDashSpace nf
  let segs := splitSpaces nf
  String.mk
    (match segs with
     | [] => nf
     | s0 :: rest => rest.foldl (fun acc seg => acc ++ pyCapitalize seg) s0)

/-- The per-field transform as amended, on the character list: lower-case,
each parenthesis becomes a space, every dash becomes a space when the
original header contains the sequence `'- '`, split on single spaces, and
when more than one segment results, the first segment is concatenated with
each subsequent nonempty segment capitalized. -/
def amendedKeyChars (field : List Char) : List Char :=
  let lowered := field.map Char.toLower
  let deParened := lowered.map (fun c => if c = '(' ∨ c = ')' then ' ' else c)
  let deDashed :=
    if containsSeq ['-', ' '] field then
      deParened.map (fun c => if c = '-' then ' ' else c)
    else deParened
  let segs := splitSpaces deDashed
  if segs.length > 1 then
    match segs with
    | [] => deDashed
    | s0 :: rest => s0 ++ ((rest.filter (fun seg => seg.length > 0)).map pyCapitalize).flatten
  else deDashed

/-- The amended key transform on strings. -/
def amendedKeyTransform (field : String) : String :=
  String.mk (amendedKeyChars field.data)

lemma windowsFrom_range (s u step : Nat) :
    ∀ (n p : Nat),
      windowsFrom (s + step * p * u) s u ((List.range n).map (fun k => step * (p + k + 1)))
        = (List.range n).map (fun k => (s + step * (p + k) * u, s + step * (p + k + 1) * u)) := by
  intro n
  induction n with
  | zero => intro p; simp [windowsFrom]
  | succ m ih =>
      intro p
      rw [List.range_succ_eq_map, List.map_cons, List.map_cons, List.map_map, List.map_map]
      show windowsFrom (s + step * p * u) s u
            (step * (p + 0 + 1) :: (List.range m).map (fun k => step * (p + (k + 1) + 1)))
          = (s + step * (p + 0) * u, s + step * (p + 0 + 1) * u)
            :: (List.range m).map (fun k => (s + step * (p + (k + 1)) * u,
                                             s + step * (p + (k + 1) + 1) * u))
      rw [windowsFrom]
      have hidx : (fun k => step * (p + (k + 1) + 1)) = (fun k => step * ((p + 1) + k + 1)) := by
        funext k; ring_nf
      have hpair : (fun k => (s + step * (p + (k + 1)) * u, s + step * (p + (k + 1) + 1) * u))
          = (fun k => (s + step * ((p + 1) + k) * u, s + step * ((p + 1) + k + 1) * u)) := by
        funext k; ring_nf
      rw [hidx, hpair, ← ih (p + 1)]
      have h0 : p + 0 + 1 = p + 1 := by ring
      have h0' : p + 0 = p := by ring
      rw [h0, h0']

lemma windowsFrom_range_zero (s u step n : Nat) :
    windowsFrom s s u ((List.range n).map (fun k => step * (k + 1)))
      = (List.range n).map (fun k => (s + step * k * u, s + step * (k + 1) * u)) := by
  have h := windowsFrom_range s u step n 0
  simp only [Nat.mul_zero, Nat.zero_mul, Nat.add_zero, Nat.zero_add] at h
  exact h

/-! ## Helper lemmas -/

lemma syncEmit_fst (bookmark : Nat) (records : List Nat) :
    ∀ acc, (syncEmit bookmark records acc).1
      = records.filter (fun r => decide (bookmark ≤ r)) := by
  induction records with
  | nil => intro acc; rfl
  | cons r rest ih =>
      intro acc
      by_cases h : bookmark ≤ r
      · simp [syncEmit, h, List.filter_cons, ih]
      · simp [syncEmit, h, List.filter_cons, ih]

lemma foldl_capitalize_append (rest : List (List Char)) :
    ∀ acc : List Char,
      rest.foldl (fun a seg => if seg.length > 0 then a ++ pyCapitalize seg else a) acc
        = acc ++ ((rest.filter (fun seg => seg.length > 0)).map pyCapitalize).flatten := by
  induction rest with
  | nil => intro acc; simp
  | cons seg rest ih =>
      intro acc
      by_cases h : seg.length > 0
      · simp [List.foldl_cons, h, ih, List.append_assoc]
      · simp [List.foldl_cons, h, ih]

lemma keyBranch_eq (nf : List Char) :
    (if (splitSpaces nf).length > 1 then
       match splitSpaces nf with
       | [] => nf
       | s0 :: rest =>
           rest.foldl (fun acc seg => if seg.length > 0 then acc ++ pyCapitalize seg else acc) s0
     else nf)
      = (if (splitSpaces nf).length > 1 then
           match splitSpaces nf with
           | [] => nf
           | s0 :: rest => s0 ++ ((rest.filter (fun seg => seg.length > 0)).map pyCapitalize).flatten
         else nf) := by
  cases h : splitSpaces nf with
  | nil => simp [h]
  | cons s0 rest => simp [h, foldl_capitalize_append]

lemma convertKeyChars_eq_amended (field : List Char) :
    convertKeyChars field = amendedKeyChars field := by
  unfold convertKeyChars amendedKeyChars
  exact keyBranch_eq _

lemma dataExtractionGetRecords_okFront (okPre : List (List Nat))
    (rest : List (Except JobExc (List Nat))) :
    dataExtractionGetRecords (okPre.map .ok ++ rest)
      = (okPre.flatten ++ (dataExtractionGetRecords rest).1,
         (dataExtractionGetRecords rest).2) := by
  induction okPre with
  | nil => simp
  | cons rs okPre ih => simp [dataExtractionGetRecords, ih, List.append_assoc]

lemma tryDurationValue_str (s : String) :
    tryDurationValue (.str s) = .ok (durationStrConv (.str s)) := by
  cases hp : parse_duration_secs s <;> simp [tryDurationValue, durationStrConv, hp]

lemma transformRecordDurations_str (r : List (String × PyVal))
    (h : ∀ p ∈ r, p.2.isStrInstance = true) :
    transformRecordDurations r = .ok (r.map (fun p => (p.1, durationStrConv p.2))) := by
  induction r with
  | nil => rfl
  | cons p rest ih =>
      obtain ⟨f, v⟩ := p
      have hv : PyVal.isStrInstance v = true := h (f, v) (List.mem_cons_self _ _)
      cases v with
      | str s =>
          have hrest := ih (fun q hq => h q (List.mem_cons_of_mem _ hq))
          simp [transformRecordDurations, tryDurationValue_str, hrest, Except.bind]
          rfl
      | int n => simp [PyVal.isStrInstance] at hv
      | bool b => simp [PyVal.isStrInstance] at hv

lemma transform_iso8601_durations_str (data : List (List (String × PyVal)))
    (h : ∀ r ∈ data, ∀ p ∈ r, p.2.isStrInstance = true) :
    transform_iso8601_durations data
      = .ok (data.map (fun r => r.map (fun p => (p.1, durationStrConv p.2)))) := by
  induction data with
  | nil => rfl
  | cons r rest ih =>
      have hr := transformRecordDurations_str r (h r (List.mem_cons_self _ _))
      have hrest := ih (fun q hq => h q (List.mem_cons_of_mem _ hq))
      simp [transform_iso8601_durations, hr, hrest, Except.bind]
      rfl

/-! ## Claim theorems -/

/-- C1: the claim says the persisted watermark equals the maximum
replication-key value among the records emitted in the run.  The code's
record loop executes `max_datetime = max(record_datetime, bookmark_datetime)`
(streams.py:162 and streams.py:744) — the max is taken against the run-start
bookmark instead of the running maximum, so the persisted watermark is the
value of the last qualifying record.  Evaluated at the failing input
(bookmark 0, records with replication values `[2, 1]`): both records are
emitted, the maximum emitted value is 2, but the persisted watermark is 1. -/
theorem c1_watermark_bug_eval :
    incremental_sync 0 [2, 1] = ([2, 1], 1)
    ∧ List.foldr max 0 [2, 1] = 2
    ∧ (1 : Nat) ≠ 2 := by
  decide

/-- C2, counterexample: with `start = 0`, `end = 129600` (36 hours) and the
day granularity, the code produces a single window `[(0, 86400)]`, while the
claim demands `ceil(129600 / 86400) = 2` windows covering `[0, 129600)`;
the instant 100000 lies in no generated window. -/
theorem c2_window_count_counterexample :
    generate_date_range 0 129600 Period.days = [(0, 86400)]
    ∧ (129600 + 86400 - 1) / 86400 = 2
    ∧ (generate_date_range 0 129600 Period.days).length = 1
    ∧ (1 : Nat) ≠ 2
    ∧ ¬ (∃ w ∈ generate_date_range 0 129600 Period.days, w.1 ≤ 100000 ∧ 100000 < w.2) := by
  decide

/-- C2, amended: for every `(start, end, granularity)` the generated windows
are the consecutive one-unit windows `[start + k·unit, start + (k+1)·unit)`
for `k < count` — hence contiguous, non-overlapping, one unit long and
covering `[start, start + count·unit)` — where `count` is
`floor((end − start) / unit)` for the day and hour granularities and
`ceil(floor((end − start) / 60) / 5)` for the 5-minute granularity; the
claimed `ceil((end − start) / unit)` count and the exact coverage of
`[start, end)` hold only when `end − start` is an exact multiple of the
unit. -/
theorem c2_windows_amended (s e : Nat) (p : Period) :
    generate_date_range s e p
      = (List.range (windowCount s e p)).map
          (fun k => (s + k * unitSeconds p, s + (k + 1) * unitSeconds p)) := by
  cases p with
  | days =>
      show windowsFrom s s 86400 (dayIndices s e) = _
      unfold dayIndices windowCount unitSeconds
      have hidx : (fun k : Nat => 1 * (k + 1)) = (fun k : Nat => k + 1) := by
        funext k; ring
      have h := windowsFrom_range_zero s 86400 1 ((e - s) / 86400)
      rw [hidx] at h
      rw [h]
      apply List.map_congr_left
      intro k _
      simp only [Nat.one_mul]
  | hours =>
      show windowsFrom s s 3600 (hourIndices s e) = _
      unfold hourIndices windowCount unitSeconds
      have hidx : (fun k : Nat => 1 * (k + 1)) = (fun k : Nat => k + 1) := by
        funext k; ring
      have h := windowsFrom_range_zero s 3600 1 ((e - s) / 3600)
      rw [hidx] at h
      rw [h]
      apply List.map_congr_left
      intro k _
      simp only [Nat.one_mul]
  | minutes =>
      show windowsFrom s s 60 (minuteIndices s e) = _
      unfold minuteIndices windowCount unitSeconds
      have h := windowsFrom_range_zero s 60 5 (((e - s) / 60 + 4) / 5)
      rw [h]
      apply List.map_congr_left
      intro k _
      simp only [Prod.mk.injEq]
      constructor <;> ring

/-- C3: the claim says `_ensure_access_token` re-authenticates exactly when
the access token is null or expired, and refreshes only when the refresh
token is present and unexpired.  The code's comparisons are inverted
(client.py:109 and client.py:123): with an access token expiring at
`T = 1000` and no refresh token, a request at `T − 1` triggers full
re-authentication while a request at `T + 1` silently keeps the expired
token; and with a refresh token whose expiry has passed, the refresh flow
fires. -/
theorem c3_token_expiry_inverted_eval :
    ensure_access_token ⟨some "tok", none, 1000, 1000⟩ none 999 = .fullAuth
    ∧ ensure_access_token ⟨some "tok", none, 1000, 1000⟩ none 1001 = .useExisting
    ∧ ensure_access_token ⟨some "tok", some "r", 1000, 1000⟩ (some "r") 1001 = .refreshFlow
    ∧ AuthAction.fullAuth ≠ AuthAction.useExisting := by
  decide

/-- C4, counterexample: the poll-timeout and missing-job-status conditions
raise a bare `Exception` (streams.py:684 and streams.py:688), and an HTTP
429 raises `NiceInContact429Exception`; none of these match the
`except (NiceInContact403Exception, NiceInContact5xxException, ValueError)`
clause of `get_records` (streams.py:770), so they escape the stream sync
instead of aborting only the current window.  Concretely: with
`poll_delay = 1`, `poll_timeout = 1` and a job that always reports
`RUNNING` (or poll responses missing the status field), `fetch_data_export`
raises the bare exception, and the window loop propagates it. -/
theorem c4_window_abort_counterexample :
    fetch_data_export 1 1 (fun _ => some "RUNNING") [] = .error .plainException
    ∧ fetch_data_export 1 1 (fun _ => none) [] = .error .plainException
    ∧ dataExtractionGetRecords [.ok [1], .error .plainException] = ([1], some .plainException)
    ∧ dataExtractionGetRecords [.ok [1], .error .rateLimit429] = ([1], some .rateLimit429)
    ∧ some JobExc.plainException ≠ (none : Option JobExc) := by
  refine ⟨rfl, rfl, rfl, rfl, ?_⟩
  decide

/-- C4, amended: a forbidden (403) response, a server error (5xx), or a
job-failure status (raised as `ValueError`) aborts only the current time
window — `get_records` stops iterating further windows, no exception
escapes, and the records (hence the watermark) reflect only the windows
processed before the failed one; but a poll-timeout, a poll response missing
the job-status field (both raised as bare `Exception`), and an HTTP 429
rate-limit response escape the stream sync.  Stated over any prefix of
successful windows followed by a failing window. -/
theorem c4_window_abort_amended (okPre : List (List Nat)) (e : JobExc)
    (rest : List (Except JobExc (List Nat))) :
    dataExtractionGetRecords (okPre.map .ok ++ .error e :: rest)
        = (okPre.flatten, if caughtByGetRecords e then none else some e)
    ∧ caughtByGetRecords .forbidden403 = true
    ∧ caughtByGetRecords .server5xx = true
    ∧ caughtByGetRecords .valueErrorJobFailure = true
    ∧ caughtByGetRecords .rateLimit429 = false
    ∧ caughtByGetRecords .plainException = false
    ∧ fetch_data_export 1 1 (fun _ => some "FAILED") [] = .error .valueErrorJobFailure := by
  refine ⟨?_, rfl, rfl, rfl, rfl, rfl, rfl⟩
  rw [dataExtractionGetRecords_okFront]
  cases he : caughtByGetRecords e <;>
    simp [dataExtractionGetRecords, he]

/-- C5, counterexample: re-running the sync from the watermark persisted by
a completed run over the identical data set does not emit zero records: the
replication filter uses `>=` (streams.py:159), so records whose value equals
the persisted watermark are emitted again.  With starting watermark 0 and a
single record with replication value 5, the first run emits it and persists
5; the re-run from watermark 5 emits it again. -/
theorem c5_replay_counterexample :
    incremental_sync 0 [5] = ([5], 5)
    ∧ incremental_sync 5 [5] = ([5], 5)
    ∧ ([5] : List Nat) ≠ [] := by
  decide

/-- C5, amended: re-running the sync with the watermark persisted by a prior
completed run over the identical data set emits exactly the records whose
replication value is `>=` that watermark (records strictly below it are
dropped); the re-run emits zero records only when no record reaches the
persisted watermark, and in particular the records at the watermark value
itself are re-emitted. -/
theorem c5_replay_amended (w0 : Nat) (records : List Nat) :
    (incremental_sync (incremental_sync w0 records).2 records).1
      = records.filter (fun r => decide ((incremental_sync w0 records).2 ≤ r)) := by
  exact syncEmit_fst _ records _

/-- C6: the claim says a record field not among the schema's declared
properties makes `convert_data_types` raise the schema-mismatch error.  The
code first formats `f'{field}: does not match: {field_prop.get("type")}'`
with `field_prop = None` (transform.py:26), so `AttributeError` is raised
and the `raise SchemaMismatch(...)` on transform.py:27 is unreachable.
Evaluated at the failing input `{"surprise": 1}` against a schema declaring
only `"a"`; the coercion half of the claim behaves as stated (integer
fields to int, `singer.decimal` fields to string, boolean fields to bool). -/
theorem c6_schema_mismatch_eval :
    convert_data_types [("surprise", .int 1)] [("a", ⟨["integer"], none⟩)]
        = .error .attributeError
    ∧ PyErr.attributeError ≠ PyErr.schemaMismatch
    ∧ convert_data_types [("a", .str "5")] [("a", ⟨["integer"], none⟩)] = .ok [("a", .int 5)]
    ∧ convert_data_types [("d", .int 3)] [("d", ⟨["string"], some "singer.decimal"⟩)]
        = .ok [("d", .str "3")]
    ∧ convert_data_types [("b", .str "True")] [("b", ⟨["boolean"], none⟩)]
        = .ok [("b", .bool true)] := by
  refine ⟨rfl, ?_, rfl, rfl, rfl⟩
  decide

/-- C7, counterexample: the claim describes the normalization as replacing
the sequence `"- "` with `"-"` before splitting; the code instead replaces
every dash with a space whenever the header contains `"- "`
(transform.py:77-78).  On the header `"a- b"` the claimed procedure yields
`"a-b"` while the code yields `"aB"`. -/
theorem c7_key_normalization_counterexample :
    convert_data_key "a- b" = "aB"
    ∧ claimKeyTransform "a- b" = "a-b"
    ∧ ("aB" : String) ≠ "a-b" := by
  decide

/-- C7, amended: each tabular column header is normalized by lower-casing,
turning every parenthesis into a space, turning every dash into a space when
the original header contains the sequence `"- "`, splitting on single
spaces, and — when more than one segment results — concatenating the first
segment with each subsequent nonempty segment capitalized (so
`"Last Name" ↦ "lastName"` and `"Handle (Count)" ↦ "handleCount"`). -/
theorem c7_key_normalization_amended (field : String) :
    convert_data_key field = amendedKeyTransform field := by
  unfold convert_data_key amendedKeyTransform
  rw [convertKeyChars_eq_amended]

/-- C8: when every attempt of a request receives an HTTP status `>= 500`,
the decorated `_make_request` performs exactly `MAX_RETRIES = 8` attempts
and then propagates the last `NiceInContact5xxException` to the caller;
network connection failures, generic 4xx client errors, 401 and 403 are in
the same retryable set under the same 8-attempt cap. -/
theorem c8_retry_exhaustion (status : Nat → Nat) (h : ∀ i, 500 ≤ status i) :
    make_request (fun i => attemptOutcome (status i)) = (8, .error .server5xx)
    ∧ retryable .connectionError = true
    ∧ retryable .client4xx = true
    ∧ retryable .forbidden403 = true
    ∧ retryable .unauthorized401 = true := by
  have ho : ∀ i, attemptOutcome (status i) = .error .server5xx := by
    intro i
    unfold attemptOutcome
    rw [if_pos (h i)]
  refine ⟨?_, rfl, rfl, rfl, rfl⟩
  show backoffCalls (fun i => attemptOutcome (status i)) 0 MAX_RETRIES = (8, .error .server5xx)
  simp [MAX_RETRIES, backoffCalls, ho, retryable]

/-- C8, witness: the theorem applied to the constant-500 endpoint. -/
theorem c8_retry_exhaustion_witness :
    make_request (fun i => attemptOutcome ((fun _ => 500) i)) = (8, .error .server5xx)
    ∧ retryable .connectionError = true
    ∧ retryable .client4xx = true
    ∧ retryable .forbidden403 = true
    ∧ retryable .unauthorized401 = true :=
  c8_retry_exhaustion (fun _ => 500) (fun _ => Nat.le_refl 500)

/-- C9, counterexample: the claim says every value that fails to parse as a
duration is passed through unchanged without raising an error, but
`isodate.parse_duration` raises `TypeError` on a non-string argument and the
code catches only `ISO8601Error` (transform.py:53-57), so a record holding
the integer 5 makes the transform raise instead of passing the value
through. -/
theorem c9_duration_counterexample :
    transform_iso8601_durations [[("a", .int 5)]] = .error .typeError
    ∧ (Except.error PyErr.typeError
        ≠ (.ok [[("a", PyVal.int 5)]] : Except PyErr (List (List (String × PyVal))))) :=
  ⟨rfl, fun h => Except.noConfusion h⟩

/-- C9, amended: on records whose field values are all strings, each value
that parses as an ISO-8601 duration is converted to its integer number of
seconds (`"PT1H30M" ↦ 5400`) and each string that fails to parse is passed
through unchanged (`"not-a-duration"` unchanged); a non-string value raises
an uncaught `TypeError` from the duration parser. -/
theorem c9_duration_amended (data : List (List (String × PyVal)))
    (h : ∀ r ∈ data, ∀ p ∈ r, p.2.isStrInstance = true) :
    transform_iso8601_durations data
        = .ok (data.map (fun r => r.map (fun p => (p.1, durationStrConv p.2))))
    ∧ transform_iso8601_durations [[("d", .str "PT1H30M")]] = .ok [[("d", .int 5400)]]
    ∧ transform_iso8601_durations [[("d", .str "not-a-duration")]]
        = .ok [[("d", .str "not-a-duration")]] :=
  ⟨transform_iso8601_durations_str data h, rfl, rfl⟩

/-- C9, witness: the amended theorem applied to a concrete all-string
record. -/
theorem c9_duration_amended_witness :
    transform_iso8601_durations [[("d", PyVal.str "PT2M")]]
        = .ok ([[("d", PyVal.str "PT2M")]].map
            (fun r => r.map (fun p => (p.1, durationStrConv p.2))))
    ∧ transform_iso8601_durations [[("d", .str "PT1H30M")]] = .ok [[("d", .int 5400)]]
    ∧ transform_iso8601_durations [[("d", .str "not-a-duration")]]
        = .ok [[("d", .str "not-a-duration")]] :=
  c9_duration_amended [[("d", PyVal.str "PT2M")]] (by decide)

/-- C10: when the API returns HTTP 204 for some time window (the client
returns `None` for it), `SkillsSummary.get_records` raises `AttributeError`
at that window — after any earlier windows' records — instead of skipping
it, while `WFMAgentsScheduleAdherence.get_records` never raises: it skips
the empty window and is equivalent to running on the remaining windows.  So
window-skip-on-204 is not an invariant of every windowed extractor. -/
theorem c10_204_asymmetry (pre : List (List Nat)) (rest : List (Option (List Nat))) :
    skillsSummaryGetRecords (pre.map some ++ none :: rest) = .error .attributeError
    ∧ wfmScheduleAdherenceGetRecords (pre.map some ++ none :: rest)
        = wfmScheduleAdherenceGetRecords (pre.map some ++ rest)
    ∧ (∀ ws : List (Option (List Nat)), ∃ rs, wfmScheduleAdherenceGetRecords ws = .ok rs) := by
  refine ⟨?_, ?_, ?_⟩
  · induction pre with
    | nil => rfl
    | cons rs pre ih => simp [skillsSummaryGetRecords, ih, Except.map]
  · induction pre with
    | nil => rfl
    | cons rs pre ih => simp [wfmScheduleAdherenceGetRecords, ih]
  · intro ws
    induction ws with
    | nil => exact ⟨[], rfl⟩
    | cons w rest ih =>
        obtain ⟨rs, hrs⟩ := ih
        cases w with
        | none => exact ⟨rs, hrs⟩
        | some xs => exact ⟨xs ++ rs, by simp [wfmScheduleAdherenceGetRecords, hrs, Except.map]⟩
